import Mathlib

/-!
A shallow embedding of `src/seashell.c`, a minimal interactive shell.

The C program is a read-parse-execute loop:
- `read_line` pulls one line from stdin via `fgets` into a `MAX_LINE` buffer,
  returns its length, `EOF_REACHED` at end of stream, or `ERROR` when the
  buffer filled up without a trailing newline (after draining the rest of the
  oversized line with `getchar`).
- `parse_line` tokenizes the buffer in place with `strtok` on the delimiter
  set `" \t\r\n\a"`; each `args` slot receives the pointer `strtok` returned
  (an address inside the raw line buffer), the slot after the last token is
  set to `NULL`, `name` receives an `strncpy` copy of the first token, and
  `arg_count` (a `char` field) receives the token count.
- `execute_command` returns `RED` for the built-in `exit`, otherwise forks,
  `execvp`s in the child (reporting and calling `exit(ERROR)` on failure)
  and waits in the parent with `waitpid`/`WUNTRACED` until the child exits
  or is killed by a signal.
- `main` loops while the status is `GREEN` and returns 0.

The embedding is pure: stdin is a `List Char` (its exhaustion is EOF, so the
only `-1` return of `read_line` in the model is the line-too-long case; the
C `fgets` failure path feeds the same `ERROR` branch of `main`), and every
externally visible action is recorded in a trace of `Effect` values.  Fork,
exec and wait outcomes are supplied by a `SysOracle`.  Pointer values handed
out by `strtok` are modelled as `CVal.ref` carrying the offset into the raw
line buffer together with the characters found there, and a copied string is
modelled as a bare character list (the `name` field) or `CVal.copy`; the
`chdirCall`, `signalIgnoreInt` and `signalDefaultInt` effect constructors
exist so that properties about directory changes and signal dispositions can
be stated, and no function of the embedding ever emits them because the C
source contains no `chdir` and no `signal`/`sigaction` call.
-/

namespace Seashell

/-- MAX_LINE from seashell.c: size of the line buffer and of the args array. -/
def MAX_LINE : Nat := 1024

/-- Return status code EMPTY_ARGS (-3). -/
def EMPTY_ARGS : Int := -3

/-- Return status code EOF_REACHED (-2). -/
def EOF_REACHED : Int := -2

/-- Return status code ERROR (-1). -/
def ERROR : Int := -1

/-- Control-flow status RED (0): stop the shell loop. -/
def RED : Int := 0

/-- Control-flow status GREEN (1): keep looping. -/
def GREEN : Int := 1

/-- The delimiter set DELIM = " \t\r\n\a" used by strtok in parse_line. -/
def isDelim (c : Char) : Bool :=
  c = ' ' || c = '\t' || c = '\r' || c = '\n' || c = Char.ofNat 7

/-- A token as produced by strtok: a pointer into the raw line buffer,
recorded as the offset where the token starts plus the characters readable
there (strtok terminates the token in place with a NUL byte). -/
structure TokenRef where
  off : Nat
  str : List Char
deriving DecidableEq

/-- A value stored in an `args` slot.  `ref` is a strtok pointer into the
raw line buffer, `copy` is an independently owned string (no code path of
seashell.c ever stores one in `args`), `null` is the NULL sentinel. -/
inductive CVal where
  | ref (off : Nat) (s : List Char)
  | copy (s : List Char)
  | null
deriving DecidableEq

/-- The Command struct of seashell.c: `name` (a MAX_LINE char buffer filled
by strncpy), `args` (the written prefix of the MAX_LINE pointer array) and
`arg_count` (a `char` field, so it holds the stored byte, i.e. the count
modulo 256). -/
structure Command where
  name : List Char
  args : List CVal
  arg_count : Nat
deriving DecidableEq

/-- Outcome of one waitpid call, as classified by the C do-while loop:
failure (-1), WIFEXITED, WIFSIGNALED, or a WUNTRACED stop report. -/
inductive WaitRes where
  | werr
  | exited (code : Int)
  | signaled (sig : Int)
  | stopped
deriving DecidableEq

/-- Oracle for the nondeterministic system calls: whether fork fails,
whether execvp fails in the child, and the successive waitpid outcomes. -/
structure SysOracle where
  forkFails : Bool
  execFails : Bool
  waitResults : List WaitRes

/-- Externally visible actions of the shell, in program order. -/
inductive Effect where
  | writeOut (msg : String)
  | writeErr (msg : String)
  | forkCall
  | spawnChild (name : List Char)
  | execCall (name : List Char) (args : List CVal)
  | childExit (code : Int)
  | waitCall
  | chdirCall (path : List Char)
  | signalIgnoreInt
  | signalDefaultInt
deriving DecidableEq

/-- The prompt printed by main before each read. -/
def promptStr : String := "seashell> "

/-- Message printed to stdout when read_line reports EOF_REACHED. -/
def eofMsg : String := "EOF reached.\n"

/-- perror text used by main when read_line reports ERROR. -/
def readErrMsg : String := "Error reading input."

/-- stderr message printed by main when parse_line reports ERROR. -/
def parseErrMsg : String := "Error parsing command.\n"

/-- stderr message printed by parse_line on argument-vector overflow. -/
def tooManyMsg : String := "Too many arguments\n"

/-- perror text used by execute_command when fork fails. -/
def forkMsg : String := "fork"

/-- perror text used by the child when execvp fails. -/
def execvpMsg : String := "execvp"

/-- perror text used by execute_command when waitpid fails. -/
def waitpidMsg : String := "waitpid"

/-- stderr message printed by main when execute_command reports ERROR. -/
def execErrFor (name : List Char) : String :=
  "Error executing command: " ++ String.mk name ++ "\n"

/-- Helper for fgets: read at most `n` characters, stopping after a newline
or when the stream ends; returns the characters read and the rest. -/
def fgetsAux : Nat → List Char → List Char × List Char
  | 0, s => ([], s)
  | _ + 1, [] => ([], [])
  | n + 1, c :: rest =>
    if c = '\n' then ([c], rest)
    else
      let r := fgetsAux n rest
      (c :: r.1, r.2)

/-- fgets(buf, cap, stdin) on a pure stream: NULL (none) when the stream is
already exhausted, otherwise up to cap - 1 characters through the first
newline. -/
def fgets (cap : Nat) (s : List Char) : Option (List Char × List Char) :=
  if s.isEmpty then none else some (fgetsAux (cap - 1) s)

/-- The drain loop of read_line: getchar until a newline or EOF. -/
def drainLine : List Char → List Char
  | [] => []
  | c :: rest => if c = '\n' then rest else drainLine rest

/-- read_line of seashell.c on a pure stream.  Returns the C return value
(length, EOF_REACHED or ERROR), the buffer contents, and the rest of the
stream.  The ERROR return arises exactly when the buffer filled to
MAX_LINE - 1 characters without a trailing newline; the remainder of that
line is drained before returning. -/
def read_line (s : List Char) : Int × List Char × List Char :=
  match fgets MAX_LINE s with
  | none => (EOF_REACHED, [], s)
  | some br =>
    if br.1.length = MAX_LINE - 1 ∧ br.1.getLast? ≠ some '\n' then
      (ERROR, br.1, drainLine br.2)
    else
      ((br.1.length : Int), br.1, br.2)

/-- The successive strtok results on the raw line: maximal runs of
non-delimiter characters, each recorded with the offset at which strtok
returns its pointer into the buffer.  The accumulator holds the token being
scanned (start offset, reversed characters). -/
def tokenizeAux : List Char → Nat → Option (Nat × List Char) → List TokenRef
  | [], _, none => []
  | [], _, some st => [⟨st.1, st.2.reverse⟩]
  | c :: rest, i, none =>
    if isDelim c then tokenizeAux rest (i + 1) none
    else tokenizeAux rest (i + 1) (some (i, [c]))
  | c :: rest, i, some st =>
    if isDelim c then ⟨st.1, st.2.reverse⟩ :: tokenizeAux rest (i + 1) none
    else tokenizeAux rest (i + 1) (some (st.1, c :: st.2))

/-- All strtok tokens of a raw line, with their buffer offsets. -/
def tokenize (line : List Char) : List TokenRef := tokenizeAux line 0 none

/-- The value parse_line stores into an args slot for one token: the strtok
pointer, i.e. an alias into the raw line buffer. -/
def CVal.ofTok (t : TokenRef) : CVal := CVal.ref t.off t.str

/-- parse_line of seashell.c on a (memset-cleared) Command.  Stores each
strtok pointer into the next args slot; after storing a token at index
MAX_LINE - 1 the position check fires, prints to stderr and returns ERROR
(so at most MAX_LINE slots are ever written and no sentinel is placed).
Zero tokens yield EMPTY_ARGS after the sentinel write at slot 0.  On
success, args holds the token pointers followed by the NULL sentinel, name
receives an strncpy copy of the first token (at most MAX_LINE - 1
characters), and the `char` field arg_count receives the token count, i.e.
its value modulo 256. -/
def parse_line (line : List Char) : Int × Command × List Effect :=
  if MAX_LINE ≤ (tokenize line).length then
    (ERROR,
      { name := [],
        args := ((tokenize line).take MAX_LINE).map CVal.ofTok,
        arg_count := 0 },
      [Effect.writeErr tooManyMsg])
  else
    match tokenize line with
    | [] => (EMPTY_ARGS, { name := [], args := [CVal.null], arg_count := 0 }, [])
    | t :: ts =>
      (GREEN,
        { name := t.str.take (MAX_LINE - 1),
          args := (t :: ts).map CVal.ofTok ++ [CVal.null],
          arg_count := (t :: ts).length % 256 },
        [])

/-- The characters of the string literal "exit" compared by strcmp. -/
def exitChars : List Char := ['e', 'x', 'i', 't']

/-- The characters of "cd". -/
def cdChars : List Char := ['c', 'd']

/-- The parent do-while loop around waitpid: repeat while the reported state
is neither WIFEXITED nor WIFSIGNALED (i.e. on WUNTRACED stop reports);
waitpid failure is reported and ERROR returned.  An exhausted oracle list
stands for a child that already reached a terminal state. -/
def waitLoop : List WaitRes → Int × List Effect
  | [] => (GREEN, [])
  | w :: rest =>
    match w with
    | WaitRes.werr => (ERROR, [Effect.waitCall, Effect.writeErr waitpidMsg])
    | WaitRes.exited _ => (GREEN, [Effect.waitCall])
    | WaitRes.signaled _ => (GREEN, [Effect.waitCall])
    | WaitRes.stopped =>
      let r := waitLoop rest
      (r.1, Effect.waitCall :: r.2)

/-- The actions of the child process (pid == 0): execvp, and if it returns,
perror plus exit(ERROR); on success the image is replaced and nothing of the
shell runs in the child anymore. -/
def childEffects (cmd : Command) (execFails : Bool) : List Effect :=
  if execFails then
    [Effect.execCall cmd.name cmd.args, Effect.writeErr execvpMsg,
     Effect.childExit ERROR]
  else
    [Effect.execCall cmd.name cmd.args]

/-- execute_command of seashell.c: RED for the built-in "exit" before any
fork; otherwise fork (on failure perror and ERROR), the child execvps, and
the parent waits.  The trace interleaves child actions between fork and the
wait calls, matching the order in which they become observable. -/
def execute_command (cmd : Command) (sys : SysOracle) : Int × List Effect :=
  if cmd.name = exitChars then (RED, [])
  else if sys.forkFails then (ERROR, [Effect.forkCall, Effect.writeErr forkMsg])
  else
    ((waitLoop sys.waitResults).1,
      Effect.forkCall :: Effect.spawnChild cmd.name ::
        (childEffects cmd sys.execFails ++ (waitLoop sys.waitResults).2))

/-- The parse/execute part of one main-loop iteration, after a successful
read: on parse GREEN run execute_command and map its status (ERROR prints
and goes RED, RED stays RED, anything else continues GREEN); on parse ERROR
print and continue; on EMPTY_ARGS and any other status just continue. -/
def run_parsed (pres : Int × Command × List Effect) (sys : SysOracle)
    (rest : List Char) : Int × List Char × List Effect :=
  if pres.1 = GREEN then
    if (execute_command pres.2.1 sys).1 = ERROR then
      (RED, rest,
        pres.2.2 ++ (execute_command pres.2.1 sys).2 ++
          [Effect.writeErr (execErrFor pres.2.1.name)])
    else if (execute_command pres.2.1 sys).1 = RED then
      (RED, rest, pres.2.2 ++ (execute_command pres.2.1 sys).2)
    else
      (GREEN, rest, pres.2.2 ++ (execute_command pres.2.1 sys).2)
  else if pres.1 = ERROR then
    (GREEN, rest, pres.2.2 ++ [Effect.writeErr parseErrMsg])
  else
    (GREEN, rest, pres.2.2)

/-- One iteration of the main loop: print the prompt, read a line, and
either stop (EOF after the message, read ERROR after perror) or parse and
execute.  Returns the status driving the while loop, the rest of the
stream, and the iteration trace. -/
def shell_iter (s : List Char) (sys : SysOracle) : Int × List Char × List Effect :=
  if (read_line s).1 = EOF_REACHED then
    ((RED : Int), (read_line s).2.2,
      [Effect.writeOut promptStr, Effect.writeOut eofMsg])
  else if (read_line s).1 = ERROR then
    ((RED : Int), (read_line s).2.2,
      [Effect.writeOut promptStr, Effect.writeErr readErrMsg])
  else
    ((run_parsed (parse_line (read_line s).2.1) sys (read_line s).2.2).1,
      (run_parsed (parse_line (read_line s).2.1) sys (read_line s).2.2).2.1,
      Effect.writeOut promptStr ::
        (run_parsed (parse_line (read_line s).2.1) sys (read_line s).2.2).2.2)

/-- The while loop of main, fuelled: iterate while the status is GREEN; on
any other status main falls out of the loop, frees the Command, and returns
0.  Every iteration either stops or consumes at least one input character,
so fuel `s.length + 1` never runs out; the fuel-exhausted result also
carries main's only return value 0. -/
def shell_loop : Nat → List Char → SysOracle → Int × List Effect
  | 0, _, _ => (0, [])
  | fuel + 1, s, sys =>
    if (shell_iter s sys).1 = GREEN then
      ((shell_loop fuel (shell_iter s sys).2.1 sys).1,
        (shell_iter s sys).2.2 ++ (shell_loop fuel (shell_iter s sys).2.1 sys).2)
    else
      (0, (shell_iter s sys).2.2)

/-- main of seashell.c on a pure input stream: run the loop (the startup
allocations are assumed to succeed; their failure path exits before the
loop) and return the process exit code together with the full trace. -/
def seashell_main (s : List Char) (sys : SysOracle) : Int × List Effect :=
  shell_loop (s.length + 1) s sys

/-- Is this effect a fork call? -/
def isFork : Effect → Bool
  | Effect.forkCall => true
  | _ => false

/-- Is this effect the creation of a child process? -/
def isSpawn : Effect → Bool
  | Effect.spawnChild _ => true
  | _ => false

/-- Is this effect a working-directory change? -/
def isChdir : Effect → Bool
  | Effect.chdirCall _ => true
  | _ => false

/-- Is this effect a signal-disposition change? -/
def isSig : Effect → Bool
  | Effect.signalIgnoreInt => true
  | Effect.signalDefaultInt => true
  | _ => false

/-- Is this effect a waitpid call? -/
def isWait : Effect → Bool
  | Effect.waitCall => true
  | _ => false

/-- Does the trace attempt a fork? -/
def attemptsFork (es : List Effect) : Bool := es.any isFork

/-- Does the trace create a child process? -/
def spawnsChild (es : List Effect) : Bool := es.any isSpawn

/-- Does the trace change the working directory? -/
def changesDir (es : List Effect) : Bool := es.any isChdir

/-- Does the trace change any signal disposition? -/
def touchesSignals (es : List Effect) : Bool := es.any isSig

/-- Does the trace call waitpid? -/
def callsWait (es : List Effect) : Bool := es.any isWait

/-- A chdir or signal effect: no function of this embedding ever emits one,
because seashell.c contains no such call. -/
def isPhantom (e : Effect) : Bool := isChdir e || isSig e

/-- Does the trace write to the error stream? -/
def isErrWrite : Effect → Bool
  | Effect.writeErr _ => true
  | _ => false

/-- The oracle for runs where fork succeeds, execvp succeeds and the child
exits normally. -/
def sysOK : SysOracle := ⟨false, false, [WaitRes.exited 0]⟩

/-- The oracle for runs where fork fails. -/
def sysForkFail : SysOracle := ⟨true, false, []⟩

/-- The oracle for runs where fork succeeds but execvp fails in the child,
which then exits with status byte 255. -/
def sysExecFail : SysOracle := ⟨false, true, [WaitRes.exited 255]⟩

/-- An input stream whose first physical line is 1023 characters long with
no newline among them, so read_line reports the line-too-long ERROR and
drains up to and including the newline; the stream then carries a second
command line. -/
def longStream : List Char := List.replicate 1023 'a' ++ '\n' :: "echo hi\n".toList

/-- Input stream typing exit surrounded by whitespace. -/
def exitStream : List Char := "  exit  \n".toList

/-- Input stream with two external commands. -/
def lsStream : List Char := "ls\npwd\n".toList

/-- Input stream naming a nonexistent external command. -/
def notfoundStream : List Char := "definitely_not_a_real_command_xyz\n".toList

/-- Input stream consisting of a blank line. -/
def emptyStream : List Char := "\n".toList

/-- n repetitions of the two characters "a ": a line of n one-letter
whitespace-separated tokens. -/
def pairTokens : Nat → List Char
  | 0 => []
  | n + 1 => 'a' :: ' ' :: pairTokens n

/-- A raw line of 300 tokens. -/
def c6line : List Char := pairTokens 300

/-- A raw line of MAX_LINE tokens, one more than parse_line accepts. -/
def bigLine : List Char := pairTokens MAX_LINE

/-- The Command parsed from the line "cd /tmp". -/
def cdCmdC : Command := (parse_line ("cd /tmp".toList)).2.1

/-- The Command parsed from the line "ls". -/
def lsCmdC : Command := (parse_line ("ls\n".toList)).2.1

/-- The Command parsed from the exit line read off exitStream. -/
def exitCmdC : Command := (parse_line (read_line exitStream).2.1).2.1

/-- If a Boolean predicate implies another pointwise, a list on which the
stronger one never holds also never satisfies the weaker one. -/
theorem any_false_mono {α : Type} {p q : α → Bool} (h : ∀ x, p x = true → q x = true)
    (l : List α) (hl : l.any q = false) : l.any p = false := by
  rw [List.any_eq_false] at hl ⊢
  intro x hx hpx
  exact hl x hx (h x hpx)

/-- The wait loop emits only waitCall and writeErr effects. -/
theorem waitLoop_phantom (ws : List WaitRes) : (waitLoop ws).2.any isPhantom = false := by
  induction ws with
  | nil => rfl
  | cons w rest ih =>
    cases w with
    | werr => rfl
    | exited c => rfl
    | signaled c => rfl
    | stopped =>
      have h1 : isPhantom Effect.waitCall = false := rfl
      simp [waitLoop, List.any_cons, h1, ih]

/-- The child emits only execCall, writeErr and childExit effects. -/
theorem childEffects_phantom (cmd : Command) (b : Bool) :
    (childEffects cmd b).any isPhantom = false := by
  cases b <;> rfl

/-- execute_command never changes the working directory nor any signal
disposition: seashell.c contains no chdir and no signal call. -/
theorem exec_phantom (cmd : Command) (sys : SysOracle) :
    (execute_command cmd sys).2.any isPhantom = false := by
  unfold execute_command
  split
  · rfl
  · split
    · rfl
    · simp [List.any_cons, List.any_append, childEffects_phantom, waitLoop_phantom,
        (show isPhantom Effect.forkCall = false from rfl),
        (show isPhantom (Effect.spawnChild cmd.name) = false from rfl)]

/-- parse_line emits at most a diagnostic write. -/
theorem parse_phantom (l : List Char) : (parse_line l).2.2.any isPhantom = false := by
  unfold parse_line
  split
  · rfl
  · split <;> rfl

/-- parse_line spawns no process and attempts no fork. -/
theorem parse_no_proc (l : List Char) :
    (parse_line l).2.2.any isSpawn = false ∧ (parse_line l).2.2.any isFork = false := by
  unfold parse_line
  split
  · exact ⟨rfl, rfl⟩
  · split <;> exact ⟨rfl, rfl⟩

/-- When parse_line succeeds it has printed nothing. -/
theorem parse_green_eff (l : List Char) (h : (parse_line l).1 = GREEN) :
    (parse_line l).2.2 = [] := by
  by_cases h1 : MAX_LINE ≤ (tokenize l).length
  · unfold parse_line at h
    rw [if_pos h1] at h
    exact absurd h (show ¬(ERROR = GREEN) by decide)
  · unfold parse_line
    rw [if_neg h1]
    cases tokenize l with
    | nil => rfl
    | cons t ts => rfl

/-- The parse/execute phase of an iteration never changes the working
directory nor any signal disposition. -/
theorem run_parsed_phantom (l : List Char) (sys : SysOracle) (rest : List Char) :
    (run_parsed (parse_line l) sys rest).2.2.any isPhantom = false := by
  unfold run_parsed
  split
  · split
    · simp [List.any_cons, List.any_append, parse_phantom, exec_phantom,
        (show isPhantom (Effect.writeErr (execErrFor (parse_line l).2.1.name)) = false from rfl)]
    · split
      · simp [List.any_append, parse_phantom, exec_phantom]
      · simp [List.any_append, parse_phantom, exec_phantom]
  · split
    · simp [List.any_cons, List.any_append, parse_phantom,
        (show isPhantom (Effect.writeErr parseErrMsg) = false from rfl)]
    · simp [parse_phantom]

/-- A whole loop iteration never changes the working directory nor any
signal disposition. -/
theorem iter_phantom (s : List Char) (sys : SysOracle) :
    (shell_iter s sys).2.2.any isPhantom = false := by
  unfold shell_iter
  split
  · rfl
  · split
    · rfl
    · simp [List.any_cons, run_parsed_phantom,
        (show isPhantom (Effect.writeOut promptStr) = false from rfl)]

/-- The whole shell loop never changes the working directory nor any signal
disposition. -/
theorem loop_phantom (fuel : Nat) (s : List Char) (sys : SysOracle) :
    (shell_loop fuel s sys).2.any isPhantom = false := by
  induction fuel generalizing s with
  | zero => rfl
  | succ n ih =>
    unfold shell_loop
    split
    · simp [List.any_append, iter_phantom, ih]
    · exact iter_phantom s sys

/-- A phantom-free trace changes no directory and no signal disposition. -/
theorem chdir_sig_false_of_phantom (es : List Effect) (h : es.any isPhantom = false) :
    changesDir es = false ∧ touchesSignals es = false := by
  constructor
  · exact any_false_mono (fun e he => by simp [isPhantom, he]) es h
  · exact any_false_mono (fun e he => by simp [isPhantom, he]) es h

/-- main returns 0 whatever ends the loop: exit, EOF, read error or an
execution error. -/
theorem shell_loop_returns_zero (fuel : Nat) (s : List Char) (sys : SysOracle) :
    (shell_loop fuel s sys).1 = 0 := by
  induction fuel generalizing s with
  | zero => rfl
  | succ n ih =>
    unfold shell_loop
    split
    · exact ih _
    · rfl

/-- Every loop iteration starts by printing the prompt. -/
theorem iter_prompt (s : List Char) (sys : SysOracle) :
    Effect.writeOut promptStr ∈ (shell_iter s sys).2.2 := by
  unfold shell_iter
  split
  · exact List.mem_cons_self _ _
  · split
    · exact List.mem_cons_self _ _
    · exact List.mem_cons_self _ _

/-- Shape of an iteration whose execute_command reports ERROR: main prints
the execution error and leaves the loop. -/
theorem iter_exec_error (s : List Char) (sys : SysOracle)
    (h3 : (read_line s).1 ≠ EOF_REACHED) (h4 : (read_line s).1 ≠ ERROR)
    (h5 : (parse_line (read_line s).2.1).1 = GREEN)
    (herr : (execute_command (parse_line (read_line s).2.1).2.1 sys).1 = ERROR) :
    (shell_iter s sys).1 = RED ∧
    (shell_iter s sys).2.2 =
      Effect.writeOut promptStr :: ((parse_line (read_line s).2.1).2.2 ++
        (execute_command (parse_line (read_line s).2.1).2.1 sys).2 ++
        [Effect.writeErr (execErrFor (parse_line (read_line s).2.1).2.1.name)]) := by
  unfold shell_iter run_parsed
  rw [if_neg h3, if_neg h4, if_pos h5, if_pos herr]
  exact ⟨rfl, rfl⟩

/-- Shape of an iteration whose execute_command reports GREEN: the loop
continues. -/
theorem iter_exec_cont (s : List Char) (sys : SysOracle)
    (h3 : (read_line s).1 ≠ EOF_REACHED) (h4 : (read_line s).1 ≠ ERROR)
    (h5 : (parse_line (read_line s).2.1).1 = GREEN)
    (hg : (execute_command (parse_line (read_line s).2.1).2.1 sys).1 = GREEN) :
    (shell_iter s sys).1 = GREEN ∧
    (shell_iter s sys).2.2 =
      Effect.writeOut promptStr :: ((parse_line (read_line s).2.1).2.2 ++
        (execute_command (parse_line (read_line s).2.1).2.1 sys).2) := by
  have hne1 : (execute_command (parse_line (read_line s).2.1).2.1 sys).1 ≠ ERROR := by
    rw [hg]; decide
  have hne2 : (execute_command (parse_line (read_line s).2.1).2.1 sys).1 ≠ RED := by
    rw [hg]; decide
  unfold shell_iter run_parsed
  rw [if_neg h3, if_neg h4, if_pos h5, if_neg hne1, if_neg hne2]
  exact ⟨rfl, rfl⟩

/-- Shape of an iteration whose parse fails (ERROR or EMPTY_ARGS): nothing
is executed and the loop continues. -/
theorem iter_parse_fail (s : List Char) (sys : SysOracle)
    (h3 : (read_line s).1 ≠ EOF_REACHED) (h4 : (read_line s).1 ≠ ERROR)
    (hp : (parse_line (read_line s).2.1).1 ≠ GREEN) :
    (shell_iter s sys).1 = GREEN ∧
    ((shell_iter s sys).2.2 =
        Effect.writeOut promptStr :: ((parse_line (read_line s).2.1).2.2 ++
          [Effect.writeErr parseErrMsg]) ∨
      (shell_iter s sys).2.2 =
        Effect.writeOut promptStr :: (parse_line (read_line s).2.1).2.2) := by
  unfold shell_iter run_parsed
  rw [if_neg h3, if_neg h4, if_neg hp]
  by_cases hpe : (parse_line (read_line s).2.1).1 = ERROR
  · rw [if_pos hpe]; exact ⟨rfl, Or.inl rfl⟩
  · rw [if_neg hpe]; exact ⟨rfl, Or.inr rfl⟩

/-- fgets on a newline-free block exactly as long as its budget consumes
the whole block and nothing after it. -/
theorem fgetsAux_all_no_nl (xs ys : List Char) (h : '\n' ∉ xs) :
    fgetsAux xs.length (xs ++ ys) = (xs, ys) := by
  induction xs with
  | nil => rfl
  | cons c t ih =>
    have hc : c ≠ '\n' := by
      intro hc; subst hc; exact h (List.mem_cons_self _ _)
    have ht : '\n' ∉ t := fun hm => h (List.mem_cons_of_mem c hm)
    simp [fgetsAux, hc, ih ht]

/-- fgets with enough budget reads a newline-free block through its
terminating newline and stops there. -/
theorem fgetsAux_to_nl (xs : List Char) :
    ∀ (n : Nat) (ys : List Char), '\n' ∉ xs → xs.length < n →
      fgetsAux n (xs ++ '\n' :: ys) = (xs ++ ['\n'], ys) := by
  induction xs with
  | nil =>
    intro n ys _ hn
    cases n with
    | zero => simp at hn
    | succ m => simp [fgetsAux]
  | cons c t ih =>
    intro n ys h hn
    cases n with
    | zero => simp at hn
    | succ m =>
      have hc : c ≠ '\n' := by
        intro hc; subst hc; exact h (List.mem_cons_self _ _)
      have ht : '\n' ∉ t := fun hm => h (List.mem_cons_of_mem c hm)
      have hm2 : t.length < m := by
        simp only [List.length_cons] at hn
        omega
      simp [fgetsAux, hc, ih m ys ht hm2]

/-- The drain loop on a newline-free remainder consumes the whole stream. -/
theorem drainLine_no_nl (xs : List Char) (h : '\n' ∉ xs) : drainLine xs = [] := by
  induction xs with
  | nil => rfl
  | cons c t ih =>
    have hc : c ≠ '\n' := by
      intro hc; subst hc; exact h (List.mem_cons_self _ _)
    have ht : '\n' ∉ t := fun hm => h (List.mem_cons_of_mem c hm)
    simp [drainLine, hc, ih ht]

/-- The drain loop discards everything up to and including the first
newline. -/
theorem drainLine_to_nl (xs ys : List Char) (h : '\n' ∉ xs) :
    drainLine (xs ++ '\n' :: ys) = ys := by
  induction xs with
  | nil => simp [drainLine]
  | cons c t ih =>
    have hc : c ≠ '\n' := by
      intro hc; subst hc; exact h (List.mem_cons_self _ _)
    have ht : '\n' ∉ t := fun hm => h (List.mem_cons_of_mem c hm)
    simp [drainLine, hc, ih ht]

/-- fgets on a nonempty stream reads via fgetsAux. -/
theorem fgets_of_ne_nil (cap : Nat) (s : List Char) (h : s ≠ []) :
    fgets cap s = some (fgetsAux (cap - 1) s) := by
  have h2 : s.isEmpty = false := List.isEmpty_eq_false.mpr h
  simp [fgets, h2]

/-- read_line on a stream whose first MAX_LINE - 1 characters contain no
newline: the buffer fills up, the ERROR code is returned, and the rest of
the oversized line is drained. -/
theorem read_line_too_long (long rest : List Char) (h1 : long.length = MAX_LINE - 1)
    (h2 : '\n' ∉ long) :
    read_line (long ++ rest) = (ERROR, long, drainLine rest) := by
  have hne : long ≠ [] := by
    intro h
    rw [h] at h1
    simp [MAX_LINE] at h1
  have happ : long ++ rest ≠ [] := by
    intro h
    exact hne (List.append_eq_nil.mp h).1
  have hlast : long.getLast? ≠ some '\n' := by
    rw [List.getLast?_eq_getLast long hne]
    intro hcon
    rw [Option.some.injEq] at hcon
    have hmem := List.getLast_mem hne
    rw [hcon] at hmem
    exact h2 hmem
  have hfa : fgetsAux (MAX_LINE - 1) (long ++ rest) = (long, rest) := by
    rw [← h1]
    exact fgetsAux_all_no_nl long rest h2
  unfold read_line
  rw [fgets_of_ne_nil MAX_LINE _ happ, hfa]
  show (if long.length = MAX_LINE - 1 ∧ long.getLast? ≠ some '\n' then
      (ERROR, long, drainLine rest)
    else ((long.length : Int), long, rest)) = (ERROR, long, drainLine rest)
  rw [if_pos ⟨h1, hlast⟩]

/-- read_line on a stream whose first line fits the buffer: the whole line
including its newline is returned together with its length. -/
theorem read_line_fits (l2 rest2 : List Char) (h1 : '\n' ∉ l2)
    (h2 : l2.length + 2 ≤ MAX_LINE) :
    read_line (l2 ++ '\n' :: rest2) = (((l2.length + 1 : Nat) : Int), l2 ++ ['\n'], rest2) := by
  have happ : l2 ++ '\n' :: rest2 ≠ [] := by
    intro h
    exact List.cons_ne_nil '\n' rest2 (List.append_eq_nil.mp h).2
  have hlt : l2.length < MAX_LINE - 1 := by
    simp only [MAX_LINE] at h2 ⊢
    omega
  have hfa : fgetsAux (MAX_LINE - 1) (l2 ++ '\n' :: rest2) = (l2 ++ ['\n'], rest2) :=
    fgetsAux_to_nl l2 (MAX_LINE - 1) rest2 h1 hlt
  have hcond : ¬((l2 ++ ['\n']).length = MAX_LINE - 1 ∧
      (l2 ++ ['\n']).getLast? ≠ some '\n') := by
    intro hcon
    exact hcon.2 (List.getLast?_concat l2)
  unfold read_line
  rw [fgets_of_ne_nil MAX_LINE _ happ, hfa]
  show (if (l2 ++ ['\n']).length = MAX_LINE - 1 ∧ (l2 ++ ['\n']).getLast? ≠ some '\n' then
      (ERROR, l2 ++ ['\n'], drainLine rest2)
    else (((l2 ++ ['\n']).length : Int), l2 ++ ['\n'], rest2)) =
    (((l2.length + 1 : Nat) : Int), l2 ++ ['\n'], rest2)
  rw [if_neg hcond]
  simp

/-- C1 fails on the code: seashell.c has no cd built-in.  For the concrete
parsed line "cd /tmp" the executor spawns a child process (the claim says
none is ever spawned for cd) and changes no working directory (the claim
says cd changes it); for the zero-argument line "cd" the executor writes
nothing to the error stream (the claim says a usage error is reported) and
again spawns a child. -/
theorem C1_counterexample :
    spawnsChild (execute_command cdCmdC sysOK).2 = true ∧
    changesDir (execute_command cdCmdC sysOK).2 = false ∧
    (execute_command (parse_line ("cd\n".toList)).2.1 sysOK).2.any isErrWrite = false ∧
    spawnsChild (execute_command (parse_line ("cd\n".toList)).2.1 sysOK).2 = true := by
  decide

/-- C1 amended: the shell does not implement cd as a built-in.  A command
named cd is dispatched exactly like any external command: a fork is always
attempted, a child is spawned whenever fork succeeds, and the shell's
working directory is never changed. -/
theorem C1_theorem (cmd : Command) (sys : SysOracle) (h : cmd.name = cdChars) :
    attemptsFork (execute_command cmd sys).2 = true ∧
    changesDir (execute_command cmd sys).2 = false ∧
    (sys.forkFails = false → spawnsChild (execute_command cmd sys).2 = true) := by
  have hne : cmd.name ≠ exitChars := by rw [h]; decide
  refine ⟨?_, (chdir_sig_false_of_phantom _ (exec_phantom cmd sys)).1, ?_⟩
  · unfold execute_command
    rw [if_neg hne]
    by_cases hf : sys.forkFails
    · simp [hf, attemptsFork, List.any_cons, isFork]
    · simp [hf, attemptsFork, List.any_cons, isFork]
  · intro hf
    unfold execute_command
    rw [if_neg hne]
    simp [hf, spawnsChild, List.any_cons, isSpawn]

/-- Witness for C1_theorem at the parsed command of the line "cd /tmp" with
the all-success oracle. -/
theorem C1_witness :
    cdCmdC.name = cdChars ∧
    (attemptsFork (execute_command cdCmdC sysOK).2 = true ∧
      changesDir (execute_command cdCmdC sysOK).2 = false ∧
      (sysOK.forkFails = false → spawnsChild (execute_command cdCmdC sysOK).2 = true)) :=
  ⟨by decide, C1_theorem cdCmdC sysOK (by decide)⟩

/-- C2: evaluating parse_line at the failing input "echo hi" shows the
stored argument values.  Each non-sentinel args slot holds a strtok
pointer into the caller's raw line buffer (offset 0 for "echo", offset 5
for "hi"), not an independently owned copy; only the separate name field
is a copy.  This contradicts the claim that every args element is copied
out of the raw line. -/
theorem C2_alias_evidence :
    (parse_line ("echo hi".toList)).1 = GREEN ∧
    (parse_line ("echo hi".toList)).2.1.args =
      [CVal.ref 0 ("echo".toList), CVal.ref 5 ("hi".toList), CVal.null] ∧
    (parse_line ("echo hi".toList)).2.1.name = "echo".toList := by
  decide

set_option maxRecDepth 100000 in
/-- C3 fails on the code: on the stream whose first line overflows the
buffer (1023 characters, no newline), the whole run of main prints exactly
one prompt and the read-error diagnostic and then returns 0 - the loop
does not continue to a next prompt and never processes the following
"echo hi" line, contradicting the claim that the loop continues after a
ReadError or LineTooLong report. -/
theorem C3_counterexample :
    seashell_main longStream sysOK =
      (0, [Effect.writeOut promptStr, Effect.writeErr readErrMsg]) := by
  decide

/-- C3 amended: in every iteration in which read_line returns the ERROR
code (LineTooLong in this model; the fgets-failure path of the C code
feeds the identical ERROR branch of main), the shell reports the error to
the error stream and the loop terminates (status RED, so main frees the
Command and returns 0) instead of continuing to the next prompt. -/
theorem C3_theorem (s : List Char) (sys : SysOracle) (h : (read_line s).1 = ERROR) :
    (shell_iter s sys).1 = RED ∧
    (shell_iter s sys).2.2 = [Effect.writeOut promptStr, Effect.writeErr readErrMsg] := by
  have hne : (read_line s).1 ≠ EOF_REACHED := by rw [h]; decide
  unfold shell_iter
  rw [if_neg hne, if_pos h]
  exact ⟨rfl, rfl⟩

set_option maxRecDepth 100000 in
/-- Witness for C3_theorem at the overlong-line stream. -/
theorem C3_witness :
    (read_line longStream).1 = ERROR ∧
    ((shell_iter longStream sysOK).1 = RED ∧
      (shell_iter longStream sysOK).2.2 =
        [Effect.writeOut promptStr, Effect.writeErr readErrMsg]) :=
  ⟨by decide, C3_theorem longStream sysOK (by decide)⟩

/-- C4 fails on the code: seashell.c installs no signal handling at all.
In the concrete run that executes the external command "ls", a child is
spawned and the trace contains no signal-disposition change whatsoever -
in particular the parent never ignores the interrupt signal and the child
never restores a default disposition, contradicting both halves of the
claim. -/
theorem C4_counterexample :
    spawnsChild (seashell_main ("ls\n".toList) sysOK).2 = true ∧
    touchesSignals (seashell_main ("ls\n".toList) sysOK).2 = false := by
  decide

/-- C4 amended: the shell never changes any signal disposition - no run of
the main loop and no execution of a command emits a signal-related call,
in the parent or in any child; both simply keep the inherited default
handling. -/
theorem C4_theorem (s : List Char) (sys : SysOracle) (cmd : Command) :
    touchesSignals (seashell_main s sys).2 = false ∧
    touchesSignals (execute_command cmd sys).2 = false := by
  constructor
  · exact (chdir_sig_false_of_phantom _ (loop_phantom _ _ _)).2
  · exact (chdir_sig_false_of_phantom _ (exec_phantom _ _)).2

/-- C5 fails on the code: with a fork-failing oracle, the run of main on
the two-command stream "ls" then "pwd" prints one prompt, reports the fork
failure and the execution error, and returns 0 - the loop terminates
instead of continuing to the next prompt (the pwd line is never read),
contradicting the claim that the shell continues after a fork failure. -/
theorem C5_counterexample :
    seashell_main lsStream sysForkFail =
      (0, [Effect.writeOut promptStr, Effect.forkCall, Effect.writeErr forkMsg,
           Effect.writeErr (execErrFor ("ls".toList))]) := by
  decide

/-- C5 amended: when fork fails, execute_command reports the failure to the
error stream and returns ERROR without spawning a child and without
attempting any wait; main then reports an execution error and the shell
loop terminates (status RED, main returns 0) rather than continuing to the
next prompt. -/
theorem C5_theorem (cmd : Command) (sys : SysOracle) (s : List Char)
    (h1 : sys.forkFails = true) (h2 : cmd.name ≠ exitChars)
    (h3 : (read_line s).1 ≠ EOF_REACHED) (h4 : (read_line s).1 ≠ ERROR)
    (h5 : (parse_line (read_line s).2.1).1 = GREEN)
    (h6 : (parse_line (read_line s).2.1).2.1.name ≠ exitChars) :
    execute_command cmd sys = (ERROR, [Effect.forkCall, Effect.writeErr forkMsg]) ∧
    callsWait (execute_command cmd sys).2 = false ∧
    spawnsChild (execute_command cmd sys).2 = false ∧
    (shell_iter s sys).1 = RED ∧
    Effect.writeErr forkMsg ∈ (shell_iter s sys).2.2 := by
  have hexec : execute_command cmd sys =
      (ERROR, [Effect.forkCall, Effect.writeErr forkMsg]) := by
    unfold execute_command
    rw [if_neg h2, if_pos h1]
  have hexec2 : execute_command (parse_line (read_line s).2.1).2.1 sys =
      (ERROR, [Effect.forkCall, Effect.writeErr forkMsg]) := by
    unfold execute_command
    rw [if_neg h6, if_pos h1]
  obtain ⟨hst, heff⟩ := iter_exec_error s sys h3 h4 h5 (by rw [hexec2])
  refine ⟨hexec, by rw [hexec]; rfl, by rw [hexec]; rfl, hst, ?_⟩
  rw [heff, parse_green_eff _ h5, hexec2]
  simp [List.mem_cons, List.mem_append]

/-- Witness for C5_theorem at the parsed command of the line "ls" and the
two-command stream, with the fork-failing oracle. -/
theorem C5_witness :
    (sysForkFail.forkFails = true ∧ lsCmdC.name ≠ exitChars ∧
      (read_line lsStream).1 ≠ EOF_REACHED ∧ (read_line lsStream).1 ≠ ERROR ∧
      (parse_line (read_line lsStream).2.1).1 = GREEN ∧
      (parse_line (read_line lsStream).2.1).2.1.name ≠ exitChars) ∧
    (execute_command lsCmdC sysForkFail =
        (ERROR, [Effect.forkCall, Effect.writeErr forkMsg]) ∧
      callsWait (execute_command lsCmdC sysForkFail).2 = false ∧
      spawnsChild (execute_command lsCmdC sysForkFail).2 = false ∧
      (shell_iter lsStream sysForkFail).1 = RED ∧
      Effect.writeErr forkMsg ∈ (shell_iter lsStream sysForkFail).2.2) :=
  ⟨⟨by decide, by decide, by decide, by decide, by decide, by decide⟩,
    C5_theorem lsCmdC sysForkFail lsStream (by decide) (by decide) (by decide)
      (by decide) (by decide) (by decide)⟩

set_option maxRecDepth 100000 in
/-- C6: the code deviates from the claim at a line of 300 whitespace
separated tokens.  parse_line succeeds, but because the struct field
arg_count is declared as a C `char`, the stored value is the token count
modulo 256: here 44 instead of 300 (and on targets where char is signed
any count from 128 on is further misread as negative).  The claim, and
clearly the intent of the code, is that arg_count equals the token count
for any accepted count, which reaches 1023. -/
theorem C6_overflow_evidence :
    (tokenize c6line).length = 300 ∧
    (parse_line c6line).1 = GREEN ∧
    (parse_line c6line).2.1.arg_count = 44 := by
  decide

/-- C7: when fork succeeds and execvp fails in the child (nonexistent
external command), the child reports the failure to the error stream and
terminates at once with the failure status ERROR (a nonzero exit status,
so it never falls through into the parent loop logic), while
execute_command returns GREEN in the parent, the iteration continues the
loop, and the next iteration prints the prompt again. -/
theorem C7_theorem (s : List Char) (sys : SysOracle)
    (h1 : sys.forkFails = false) (h2 : sys.execFails = true)
    (h3 : sys.waitResults = [WaitRes.exited 255])
    (h4 : (read_line s).1 ≠ EOF_REACHED) (h5 : (read_line s).1 ≠ ERROR)
    (h6 : (parse_line (read_line s).2.1).1 = GREEN)
    (h7 : (parse_line (read_line s).2.1).2.1.name ≠ exitChars) :
    execute_command (parse_line (read_line s).2.1).2.1 sys =
      (GREEN,
        [Effect.forkCall, Effect.spawnChild (parse_line (read_line s).2.1).2.1.name,
         Effect.execCall (parse_line (read_line s).2.1).2.1.name
           (parse_line (read_line s).2.1).2.1.args,
         Effect.writeErr execvpMsg, Effect.childExit ERROR, Effect.waitCall]) ∧
    ERROR ≠ 0 ∧
    (shell_iter s sys).1 = GREEN ∧
    Effect.writeOut promptStr ∈ (shell_iter (shell_iter s sys).2.1 sys).2.2 := by
  have hexec : execute_command (parse_line (read_line s).2.1).2.1 sys =
      (GREEN,
        [Effect.forkCall, Effect.spawnChild (parse_line (read_line s).2.1).2.1.name,
         Effect.execCall (parse_line (read_line s).2.1).2.1.name
           (parse_line (read_line s).2.1).2.1.args,
         Effect.writeErr execvpMsg, Effect.childExit ERROR, Effect.waitCall]) := by
    unfold execute_command
    rw [if_neg h7]
    simp [h1, h2, h3, childEffects, waitLoop]
  refine ⟨hexec, by decide, ?_, iter_prompt _ _⟩
  exact (iter_exec_cont s sys h4 h5 h6 (by rw [hexec])).1

/-- Witness for C7_theorem at the stream naming a nonexistent command,
with the exec-failing oracle. -/
theorem C7_witness :
    (sysExecFail.forkFails = false ∧ sysExecFail.execFails = true ∧
      sysExecFail.waitResults = [WaitRes.exited 255] ∧
      (read_line notfoundStream).1 ≠ EOF_REACHED ∧
      (read_line notfoundStream).1 ≠ ERROR ∧
      (parse_line (read_line notfoundStream).2.1).1 = GREEN ∧
      (parse_line (read_line notfoundStream).2.1).2.1.name ≠ exitChars) ∧
    (execute_command (parse_line (read_line notfoundStream).2.1).2.1 sysExecFail =
        (GREEN,
          [Effect.forkCall,
           Effect.spawnChild (parse_line (read_line notfoundStream).2.1).2.1.name,
           Effect.execCall (parse_line (read_line notfoundStream).2.1).2.1.name
             (parse_line (read_line notfoundStream).2.1).2.1.args,
           Effect.writeErr execvpMsg, Effect.childExit ERROR, Effect.waitCall]) ∧
      ERROR ≠ 0 ∧
      (shell_iter notfoundStream sysExecFail).1 = GREEN ∧
      Effect.writeOut promptStr ∈
        (shell_iter (shell_iter notfoundStream sysExecFail).2.1 sysExecFail).2.2) :=
  ⟨⟨by decide, by decide, by decide, by decide, by decide, by decide, by decide⟩,
    C7_theorem notfoundStream sysExecFail (by decide) (by decide) (by decide)
      (by decide) (by decide) (by decide) (by decide)⟩

/-- C8: when the buffer fills to MAX_LINE - 1 characters without a newline
(a physical line longer than the buffer), read_line returns the ERROR code
and actively discards the remaining characters of that logical line up to
and including its newline - or up to end-of-stream when no newline follows
- so that the next successful read returns exactly the following logical
line (with its newline and length) and no leftover bytes of the oversized
line. -/
theorem C8_theorem (long mid l2 rest2 : List Char)
    (h1 : long.length = MAX_LINE - 1) (h2 : '\n' ∉ long) (h3 : '\n' ∉ mid)
    (h4 : '\n' ∉ l2) (h5 : l2.length + 2 ≤ MAX_LINE) :
    read_line (long ++ (mid ++ '\n' :: (l2 ++ '\n' :: rest2))) =
      (ERROR, long, l2 ++ '\n' :: rest2) ∧
    read_line (l2 ++ '\n' :: rest2) =
      (((l2.length + 1 : Nat) : Int), l2 ++ ['\n'], rest2) ∧
    read_line (long ++ mid) = (ERROR, long, []) := by
  refine ⟨?_, read_line_fits l2 rest2 h4 h5, ?_⟩
  · rw [read_line_too_long long (mid ++ '\n' :: (l2 ++ '\n' :: rest2)) h1 h2,
      drainLine_to_nl mid _ h3]
  · rw [read_line_too_long long mid h1 h2, drainLine_no_nl mid h3]

set_option maxRecDepth 100000 in
/-- Witness for C8_theorem: an oversized line of 1023 characters plus an
overflow character, followed by the one-character line "b". -/
theorem C8_witness :
    ((List.replicate 1023 'a').length = MAX_LINE - 1 ∧
      '\n' ∉ List.replicate 1023 'a' ∧ '\n' ∉ ['x'] ∧ '\n' ∉ ['b'] ∧
      (['b'] : List Char).length + 2 ≤ MAX_LINE) ∧
    (read_line (List.replicate 1023 'a' ++ (['x'] ++ '\n' :: (['b'] ++ '\n' :: ['c']))) =
        (ERROR, List.replicate 1023 'a', ['b'] ++ '\n' :: ['c']) ∧
      read_line (['b'] ++ '\n' :: ['c']) =
        ((((['b'] : List Char).length + 1 : Nat) : Int), ['b'] ++ ['\n'], ['c']) ∧
      read_line (List.replicate 1023 'a' ++ ['x']) = (ERROR, List.replicate 1023 'a', [])) :=
  ⟨⟨by decide, by decide, by decide, by decide, by decide⟩,
    C8_theorem (List.replicate 1023 'a') ['x'] ['b'] ['c'] (by decide) (by decide)
      (by decide) (by decide) (by decide)⟩

/-- C9: a command whose name is "exit" makes execute_command return RED
with an empty trace - no fork, no child, no wait, no exit-code inspection -
before any process machinery runs; on the stream typing exit surrounded by
whitespace the iteration goes RED so the loop terminates, the whole run
performs no fork and no wait, and main returns 0 on every run whatever
ends the loop (exit, end of input, or a read error). -/
theorem C9_theorem (s : List Char) (sys sys2 : SysOracle) (cmd : Command)
    (h : cmd.name = exitChars) :
    (seashell_main s sys).1 = 0 ∧
    execute_command cmd sys2 = (RED, []) ∧
    (shell_iter exitStream sys).1 = RED ∧
    attemptsFork (seashell_main exitStream sys).2 = false ∧
    callsWait (seashell_main exitStream sys).2 = false := by
  refine ⟨shell_loop_returns_zero _ _ _, ?_, rfl, rfl, rfl⟩
  unfold execute_command
  rw [if_pos h]

/-- Witness for C9_theorem at the parsed command of the line containing
exit surrounded by whitespace. -/
theorem C9_witness :
    exitCmdC.name = exitChars ∧
    ((seashell_main exitStream sysOK).1 = 0 ∧
      execute_command exitCmdC sysOK = (RED, []) ∧
      (shell_iter exitStream sysOK).1 = RED ∧
      attemptsFork (seashell_main exitStream sysOK).2 = false ∧
      callsWait (seashell_main exitStream sysOK).2 = false) :=
  ⟨by decide, C9_theorem exitStream sysOK sysOK exitCmdC (by decide)⟩

/-- C10: for every raw line with at least MAX_LINE tokens (the argument
vector capacity; at most MAX_LINE - 1 tokens plus the sentinel ever fit),
parse_line reports the Too many arguments error on the error stream and
returns ERROR, the number of populated args slots never exceeds MAX_LINE
(the array is never overrun and nothing is silently truncated into a
usable Command), and in any iteration whose parse does not succeed the
loop continues without forking or spawning any process. -/
theorem C10_theorem (line s : List Char) (sys : SysOracle)
    (h1 : MAX_LINE ≤ (tokenize line).length)
    (h2 : (read_line s).1 ≠ EOF_REACHED) (h3 : (read_line s).1 ≠ ERROR)
    (h4 : (parse_line (read_line s).2.1).1 ≠ GREEN) :
    (parse_line line).1 = ERROR ∧
    Effect.writeErr tooManyMsg ∈ (parse_line line).2.2 ∧
    (parse_line line).2.1.args.length ≤ MAX_LINE ∧
    (shell_iter s sys).1 = GREEN ∧
    spawnsChild (shell_iter s sys).2.2 = false ∧
    attemptsFork (shell_iter s sys).2.2 = false := by
  have hp : parse_line line =
      (ERROR,
        { name := [],
          args := ((tokenize line).take MAX_LINE).map CVal.ofTok,
          arg_count := 0 },
        [Effect.writeErr tooManyMsg]) := by
    unfold parse_line
    rw [if_pos h1]
  obtain ⟨hst, heff⟩ := iter_parse_fail s sys h2 h3 h4
  have hnp := parse_no_proc (read_line s).2.1
  have hspawn : spawnsChild (shell_iter s sys).2.2 = false := by
    rcases heff with heq | heq <;>
      simp [spawnsChild, heq, List.any_cons, List.any_append, hnp.1,
        (show isSpawn (Effect.writeOut promptStr) = false from rfl),
        (show isSpawn (Effect.writeErr parseErrMsg) = false from rfl)]
  have hfork : attemptsFork (shell_iter s sys).2.2 = false := by
    rcases heff with heq | heq <;>
      simp [attemptsFork, heq, List.any_cons, List.any_append, hnp.2,
        (show isFork (Effect.writeOut promptStr) = false from rfl),
        (show isFork (Effect.writeErr parseErrMsg) = false from rfl)]
  refine ⟨by rw [hp], ?_, ?_, hst, hspawn, hfork⟩
  · rw [hp]
    exact List.mem_cons_self _ _
  · rw [hp]
    show (((tokenize line).take MAX_LINE).map CVal.ofTok).length ≤ MAX_LINE
    rw [List.length_map, List.length_take]
    exact inf_le_left

set_option maxRecDepth 100000 in
/-- Witness for C10_theorem at a raw line of MAX_LINE tokens together with
the blank-line stream (whose parse reports EMPTY_ARGS, not GREEN). -/
theorem C10_witness :
    (MAX_LINE ≤ (tokenize bigLine).length ∧
      (read_line emptyStream).1 ≠ EOF_REACHED ∧ (read_line emptyStream).1 ≠ ERROR ∧
      (parse_line (read_line emptyStream).2.1).1 ≠ GREEN) ∧
    ((parse_line bigLine).1 = ERROR ∧
      Effect.writeErr tooManyMsg ∈ (parse_line bigLine).2.2 ∧
      (parse_line bigLine).2.1.args.length ≤ MAX_LINE ∧
      (shell_iter emptyStream sysOK).1 = GREEN ∧
      spawnsChild (shell_iter emptyStream sysOK).2.2 = false ∧
      attemptsFork (shell_iter emptyStream sysOK).2.2 = false) :=
  ⟨⟨by decide, by decide, by decide, by decide⟩,
    C10_theorem bigLine emptyStream sysOK (by decide) (by decide) (by decide) (by decide)⟩

end Seashell
